import Mathlib

/-!
Shallow embedding of the `SpeechToText` builder class from
`src/lib/classes/SpeechToText.class.js` (with its declaration file in
`src/unnamed/part_000`).

Modelling conventions:
* The host recognition engine is an opaque record of configuration fields,
  callback slots and two call counters (`startCalls`, `stopCalls`) that record
  how often the builder delegated to the engine's `start()` / `stop()`
  operations.
* The builder object is a record holding an `id` (its JavaScript object
  identity: a setter "returns the very same instance" iff the `id` is
  preserved) together with the engine handle `recognition` it mutates.
* Caller callbacks are abstract functions into a type `κ`; delivering an
  engine event produces the list of user-callback invocation results, so
  "invoked exactly once with arguments a, b" is "the trace equals `[cb a b]`"
  for every choice of `κ` and `cb`.
* JavaScript indexing `xs[0]` on an empty array yields `undefined`, and the
  subsequent property access on `undefined` throws a `TypeError` before the
  caller's callback can run.  The wrapper therefore returns
  `Except JsError (List κ)`: `.error .typeError` models the thrown exception
  (no callback invocation), `.ok trace` a normal return.
-/

/-- An alternative transcription offered by the engine; the wrapper reads only
its `transcript` string (a `confidence` score also exists on the host object
but is never read by this code). -/
structure SpeechRecognitionAlternative where
  transcript : String

/-- One result group of a recognition event: an ordered sequence of
alternatives plus the final-result flag, mirroring the host engine's
`SpeechRecognitionResult` (indexable like an array, with an `isFinal`
property). -/
structure SpeechRecognitionResult where
  alternatives : List SpeechRecognitionAlternative
  isFinal : Bool

/-- A recognition result event: the ordered sequence of result groups exposed
as `event.results`. -/
structure SpeechRecognitionResultEvent where
  results : List SpeechRecognitionResult

/-- A JavaScript runtime exception relevant to this code: the `TypeError`
thrown by a property access on `undefined`. -/
inductive JsError where
  | typeError

/-- The opaque recognition engine handle supplied by the host environment.
`ε` is the host's raw event payload type (for the non-result slots), `κ` the
result type of caller callbacks.  Callback slots are `none` when nothing has
been registered.  `startCalls` / `stopCalls` count the delegations to the
engine's `start()` / `stop()` operations. -/
structure RecognitionEngine (ε κ : Type) where
  lang : String
  interimResults : Bool
  maxAlternatives : Int
  continuous : Bool
  onresult : Option (SpeechRecognitionResultEvent → Except JsError (List κ))
  onend : Option (Option ε → κ)
  onerror : Option (Option ε → κ)
  onstart : Option (Option ε → κ)
  onaudiostart : Option (Option ε → κ)
  onsoundstart : Option (Option ε → κ)
  onsoundend : Option (Option ε → κ)
  onspeechstart : Option (Option ε → κ)
  onspeechend : Option (Option ε → κ)
  onnomatch : Option (Option ε → κ)
  startCalls : Nat
  stopCalls : Nat

/-- The builder instance: its JavaScript object identity `id` plus the engine
handle `this.recognition` that every setter mutates. -/
structure SpeechToText (ε κ : Type) where
  id : Nat
  recognition : RecognitionEngine ε κ

/-- The closure that `setOnResult` installs on the engine's `onresult` slot:
`var resultsList = event.results; var result = resultsList[0];
var alternative = result[0]; var text = alternative.transcript;
callback(text, result.isFinal);`.  When `resultsList` is empty, `result` is
`undefined` and `result[0]` throws; when the first group has no alternatives,
`alternative` is `undefined` and `alternative.transcript` throws. -/
def resultWrapper {κ : Type} (callback : String → Bool → κ)
    (event : SpeechRecognitionResultEvent) : Except JsError (List κ) :=
  let resultsList := event.results
  match resultsList[0]? with
  | none => Except.error JsError.typeError
  | some result =>
    match result.alternatives[0]? with
    | none => Except.error JsError.typeError
    | some alternative =>
      let text := alternative.transcript
      Except.ok [callback text result.isFinal]

/-- Engine-side delivery of a result event: fires whatever handler is stored
on the `onresult` slot (no handler registered means the event is dropped with
no callback invocation). -/
def RecognitionEngine.fireResult {ε κ : Type} (engine : RecognitionEngine ε κ)
    (event : SpeechRecognitionResultEvent) : Except JsError (List κ) :=
  match engine.onresult with
  | none => Except.ok []
  | some handler => handler event

/-- Engine-side delivery of a raw (non-result) event to one callback slot:
the stored handler, if any, receives the raw optional event payload
unchanged. -/
def fireSlot {ε κ : Type} (slot : Option (Option ε → κ)) (e : Option ε) :
    List κ :=
  match slot with
  | none => []
  | some cb => [cb e]

namespace SpeechToText

/-- `this.setInterimResults = function (newBool) {
_this.recognition.interimResults = newBool; return _this; }` -/
def setInterimResults {ε κ : Type} (self : SpeechToText ε κ) (newBool : Bool) :
    SpeechToText ε κ :=
  { self with recognition := { self.recognition with interimResults := newBool } }

/-- `this.setLanguage = function (language) {
_this.recognition.lang = language; return _this; }` -/
def setLanguage {ε κ : Type} (self : SpeechToText ε κ) (language : String) :
    SpeechToText ε κ :=
  { self with recognition := { self.recognition with lang := language } }

/-- `this.setMaxAlternatives = function (num) {
_this.recognition.maxAlternatives = num; return _this; }` -/
def setMaxAlternatives {ε κ : Type} (self : SpeechToText ε κ) (num : Int) :
    SpeechToText ε κ :=
  { self with recognition := { self.recognition with maxAlternatives := num } }

/-- `this.setContinuous = function (isContinuous) {
_this.recognition.continuous = isContinuous; return _this; }` -/
def setContinuous {ε κ : Type} (self : SpeechToText ε κ) (isContinuous : Bool) :
    SpeechToText ε κ :=
  { self with recognition := { self.recognition with continuous := isContinuous } }

/-- `this.setOnResult = function (callback) {
_this.recognition.onresult = function (event) {...}; return _this; }` —
installs the narrowing wrapper, not the raw callback. -/
def setOnResult {ε κ : Type} (self : SpeechToText ε κ)
    (callback : String → Bool → κ) : SpeechToText ε κ :=
  { self with recognition :=
      { self.recognition with onresult := some (resultWrapper callback) } }

/-- `this.setOnEnd = function (callback) {
_this.recognition.onend = callback; return _this; }` -/
def setOnEnd {ε κ : Type} (self : SpeechToText ε κ) (callback : Option ε → κ) :
    SpeechToText ε κ :=
  { self with recognition := { self.recognition with onend := some callback } }

/-- `this.setOnError = function (callback) {
_this.recognition.onerror = callback; return _this; }` -/
def setOnError {ε κ : Type} (self : SpeechToText ε κ) (callback : Option ε → κ) :
    SpeechToText ε κ :=
  { self with recognition := { self.recognition with onerror := some callback } }

/-- `this.setOnStart = function (callback) {
_this.recognition.onstart = callback; return _this; }` -/
def setOnStart {ε κ : Type} (self : SpeechToText ε κ) (callback : Option ε → κ) :
    SpeechToText ε κ :=
  { self with recognition := { self.recognition with onstart := some callback } }

/-- `this.setOnAudioStart = function (callback) {
_this.recognition.onstart = callback; return _this; }` — note the source
assigns the `onstart` slot here, not `onaudiostart`. -/
def setOnAudioStart {ε κ : Type} (self : SpeechToText ε κ)
    (callback : Option ε → κ) : SpeechToText ε κ :=
  { self with recognition := { self.recognition with onstart := some callback } }

/-- `this.setOnSoundStart = function (callback) {
_this.recognition.onsoundstart = callback; return _this; }` -/
def setOnSoundStart {ε κ : Type} (self : SpeechToText ε κ)
    (callback : Option ε → κ) : SpeechToText ε κ :=
  { self with recognition := { self.recognition with onsoundstart := some callback } }

/-- `this.setOnSoundEnd = function (callback) {
_this.recognition.onsoundend = callback; return _this; }` -/
def setOnSoundEnd {ε κ : Type} (self : SpeechToText ε κ)
    (callback : Option ε → κ) : SpeechToText ε κ :=
  { self with recognition := { self.recognition with onsoundend := some callback } }

/-- `this.setOnSpeechStart = function (callback) {
_this.recognition.onspeechstart = callback; return _this; }` -/
def setOnSpeechStart {ε κ : Type} (self : SpeechToText ε κ)
    (callback : Option ε → κ) : SpeechToText ε κ :=
  { self with recognition := { self.recognition with onspeechstart := some callback } }

/-- `this.setOnSpeechEnd = function (callback) {
_this.recognition.onspeechend = callback; return _this; }` -/
def setOnSpeechEnd {ε κ : Type} (self : SpeechToText ε κ)
    (callback : Option ε → κ) : SpeechToText ε κ :=
  { self with recognition := { self.recognition with onspeechend := some callback } }

/-- `this.setOnNoMatch = function (callback) {
_this.recognition.onnomatch = callback; return _this; }` -/
def setOnNoMatch {ε κ : Type} (self : SpeechToText ε κ)
    (callback : Option ε → κ) : SpeechToText ε κ :=
  { self with recognition := { self.recognition with onnomatch := some callback } }

/-- `this.startRecognition = function () {
_this.recognition.start(); return _this; }` — the delegation to the engine's
`start()` is recorded by incrementing its call counter. -/
def startRecognition {ε κ : Type} (self : SpeechToText ε κ) : SpeechToText ε κ :=
  { self with recognition :=
      { self.recognition with startCalls := self.recognition.startCalls + 1 } }

/-- `this.stopRecognition = function () {
_this.recognition.stop(); return _this; }` — the delegation to the engine's
`stop()` is recorded by incrementing its call counter. -/
def stopRecognition {ε κ : Type} (self : SpeechToText ε κ) : SpeechToText ε κ :=
  { self with recognition :=
      { self.recognition with stopCalls := self.recognition.stopCalls + 1 } }

/-- Getter `get maxAlternatives() { return this.recognition.maxAlternatives; }` -/
def maxAlternatives {ε κ : Type} (self : SpeechToText ε κ) : Int :=
  self.recognition.maxAlternatives

/-- Getter `get continuous() { return this.recognition.continuous; }` -/
def continuous {ε κ : Type} (self : SpeechToText ε κ) : Bool :=
  self.recognition.continuous

end SpeechToText

/-- The error thrown by the constructor when neither recognition constructor
is available on the global object (the spec names it `CapabilityUnavailable`). -/
inductive ConstructionError where
  | capabilityUnavailable (message : String)

/-- The exact message of the constructor's `throw new Error(...)`. -/
def supportErrorMessage : String :=
  "This browser doesn\x27t support the speech recognition, please try using Google Chrome, Microsoft Edge or Safari."

/-- The global environment as seen by the constructor: the two capability
lookups `window.SpeechRecognition` and `window.webkitSpeechRecognition`, each
either absent or a constructor function producing a fresh engine handle. -/
structure Window (ε κ : Type) where
  speechRecognition : Option (Unit → RecognitionEngine ε κ)
  webkitSpeechRecognition : Option (Unit → RecognitionEngine ε κ)

/-- The constructor body: `var SpeechRecognition = window.SpeechRecognition ||
window.webkitSpeechRecognition; if (!SpeechRecognition) throw new Error(...);
this.recognition = new SpeechRecognition();`.  `freshId` is the identity of
the newly allocated builder object. -/
def SpeechToText.construct {ε κ : Type} (w : Window ε κ) (freshId : Nat) :
    Except ConstructionError (SpeechToText ε κ) :=
  match w.speechRecognition.orElse (fun _ => w.webkitSpeechRecognition) with
  | none =>
      Except.error (ConstructionError.capabilityUnavailable supportErrorMessage)
  | some ctor => Except.ok ⟨freshId, ctor ()⟩

/-- A concrete engine handle used to instantiate universally quantified
theorems at closed inputs. -/
def engine0 : RecognitionEngine Unit (String × Bool) :=
  ⟨"", false, 1, false, none, none, none, none, none, none, none, none, none,
    none, 0, 0⟩

/-- A concrete builder instance over `engine0`. -/
def st0 : SpeechToText Unit (String × Bool) := ⟨0, engine0⟩

/-- A result event with one result group holding one alternative
`{transcript: "hello", isFinal: false}`. -/
def helloEvent : SpeechRecognitionResultEvent :=
  ⟨[⟨[⟨"hello"⟩], false⟩]⟩

/-- C1: after `setOnResult cb`, delivering a result event whose first result
group exists and has a first alternative invokes `cb` exactly once, with the
first alternative's transcript and that group's `isFinal` flag; the
invocation trace is exactly `[cb transcript isFinal]`. -/
theorem setOnResult_extracts_first {ε κ : Type} (st : SpeechToText ε κ)
    (cb : String → Bool → κ) (event : SpeechRecognitionResultEvent)
    (g : SpeechRecognitionResult) (a : SpeechRecognitionAlternative)
    (hg : event.results[0]? = some g) (ha : g.alternatives[0]? = some a) :
    ((st.setOnResult cb).recognition.fireResult event) =
      Except.ok [cb a.transcript g.isFinal] := by
  simp [SpeechToText.setOnResult, RecognitionEngine.fireResult, resultWrapper,
    hg, ha]

/-- Witness for C1 at the concrete event `helloEvent`: the installed wrapper
produces exactly one call `cb ("hello", false)`. -/
theorem setOnResult_extracts_first_witness :
    ((st0.setOnResult Prod.mk).recognition.fireResult helloEvent) =
      Except.ok [("hello", false)] :=
  setOnResult_extracts_first st0 Prod.mk helloEvent ⟨[⟨"hello"⟩], false⟩
    ⟨"hello"⟩ rfl rfl

/-- C2: when neither `window.SpeechRecognition` nor
`window.webkitSpeechRecognition` is available, construction fails with the
`CapabilityUnavailable` error carrying the guidance message and no builder is
produced; when a capability is available, construction succeeds with a builder
holding a fresh engine handle. -/
theorem construct_requires_capability {ε κ : Type} (w : Window ε κ) (n : Nat) :
    ((w.speechRecognition = none ∧ w.webkitSpeechRecognition = none) →
      SpeechToText.construct w n =
        Except.error (ConstructionError.capabilityUnavailable
          supportErrorMessage)) ∧
    (∀ ctor, w.speechRecognition = some ctor →
      SpeechToText.construct w n = Except.ok ⟨n, ctor ()⟩) ∧
    (∀ ctor, w.speechRecognition = none →
      w.webkitSpeechRecognition = some ctor →
      SpeechToText.construct w n = Except.ok ⟨n, ctor ()⟩) := by
  refine ⟨?_, ?_, ?_⟩
  · rintro ⟨h1, h2⟩
    simp [SpeechToText.construct, h1, h2, Option.orElse]
  · intro ctor h
    simp [SpeechToText.construct, h, Option.orElse]
  · intro ctor h1 h2
    simp [SpeechToText.construct, h1, h2, Option.orElse]

/-- Witness for C2: construction on a window with no capability errors out
with the guidance message, and construction on a window exposing only the
webkit-prefixed constructor succeeds. -/
theorem construct_requires_capability_witness :
    SpeechToText.construct (Window.mk (ε := Unit) (κ := String × Bool) none
        none) 0 =
      Except.error (ConstructionError.capabilityUnavailable
        supportErrorMessage) ∧
    SpeechToText.construct
        (Window.mk (ε := Unit) (κ := String × Bool) none
          (some (fun _ => engine0))) 0 =
      Except.ok ⟨0, engine0⟩ :=
  ⟨(construct_requires_capability
      (Window.mk (ε := Unit) (κ := String × Bool) none none) 0).1 ⟨rfl, rfl⟩,
   (construct_requires_capability
      (Window.mk none (some (fun _ => engine0))) 0).2.2
      (fun _ => engine0) rfl rfl⟩

/-- C3: `setOnAudioStart` writes the engine's `onstart` slot, not a separate
`onaudiostart` slot: after `setOnStart f` then `setOnAudioStart g` the
`onstart` slot holds `g` and the `onaudiostart` slot is untouched. -/
theorem setOnAudioStart_writes_onstart {ε κ : Type} (st : SpeechToText ε κ)
    (f g : Option ε → κ) :
    ((st.setOnStart f).setOnAudioStart g).recognition.onstart = some g ∧
    ((st.setOnStart f).setOnAudioStart g).recognition.onaudiostart =
      st.recognition.onaudiostart :=
  ⟨rfl, rfl⟩

/-- C4: the configuration setters store any value of the field's static type
unvalidated, and the accessors return it unchanged: `setMaxAlternatives n`
then the `maxAlternatives` accessor yields `n` for every integer `n`
(including values below 1), and `setContinuous b` then the `continuous`
accessor yields `b` for every boolean `b`. -/
theorem config_setter_accessor_roundtrip {ε κ : Type} (st : SpeechToText ε κ)
    (n : Int) (b : Bool) :
    (st.setMaxAlternatives n).maxAlternatives = n ∧
    (st.setContinuous b).continuous = b :=
  ⟨rfl, rfl⟩

/-- C5: every setter of the builder — the four configuration setters, the ten
callback setters, and `startRecognition` / `stopRecognition` — returns the
very builder instance it was called on (same object identity), for every
argument. -/
theorem setters_return_self {ε κ : Type} (st : SpeechToText ε κ) (s : String)
    (b : Bool) (n : Int) (cbr : String → Bool → κ) (cb : Option ε → κ) :
    (st.setInterimResults b).id = st.id ∧
    (st.setLanguage s).id = st.id ∧
    (st.setMaxAlternatives n).id = st.id ∧
    (st.setContinuous b).id = st.id ∧
    (st.setOnResult cbr).id = st.id ∧
    (st.setOnEnd cb).id = st.id ∧
    (st.setOnError cb).id = st.id ∧
    (st.setOnStart cb).id = st.id ∧
    (st.setOnAudioStart cb).id = st.id ∧
    (st.setOnSoundStart cb).id = st.id ∧
    (st.setOnSoundEnd cb).id = st.id ∧
    (st.setOnSpeechStart cb).id = st.id ∧
    (st.setOnSpeechEnd cb).id = st.id ∧
    (st.setOnNoMatch cb).id = st.id ∧
    (st.startRecognition).id = st.id ∧
    (st.stopRecognition).id = st.id :=
  ⟨rfl, rfl, rfl, rfl, rfl, rfl, rfl, rfl, rfl, rfl, rfl, rfl, rfl, rfl, rfl,
    rfl⟩

/-- C6: registering twice on the same slot keeps only the most recent
handler: for every slot the second registration overwrites the first, and for
`onresult` firing the engine afterwards runs only the wrapper around the
second callback. -/
theorem callback_last_write_wins {ε κ : Type} (st : SpeechToText ε κ)
    (fr gr : String → Bool → κ) (f g : Option ε → κ) :
    ((st.setOnResult fr).setOnResult gr).recognition.onresult =
      some (resultWrapper gr) ∧
    (∀ event, ((st.setOnResult fr).setOnResult gr).recognition.fireResult
        event = resultWrapper gr event) ∧
    ((st.setOnEnd f).setOnEnd g).recognition.onend = some g ∧
    ((st.setOnError f).setOnError g).recognition.onerror = some g ∧
    ((st.setOnStart f).setOnStart g).recognition.onstart = some g ∧
    ((st.setOnAudioStart f).setOnAudioStart g).recognition.onstart = some g ∧
    ((st.setOnSoundStart f).setOnSoundStart g).recognition.onsoundstart =
      some g ∧
    ((st.setOnSoundEnd f).setOnSoundEnd g).recognition.onsoundend = some g ∧
    ((st.setOnSpeechStart f).setOnSpeechStart g).recognition.onspeechstart =
      some g ∧
    ((st.setOnSpeechEnd f).setOnSpeechEnd g).recognition.onspeechend =
      some g ∧
    ((st.setOnNoMatch f).setOnNoMatch g).recognition.onnomatch = some g :=
  ⟨rfl, fun _ => rfl, rfl, rfl, rfl, rfl, rfl, rfl, rfl, rfl, rfl⟩

/-- C7: every callback setter other than `setOnResult` stores the caller's
callback on its engine slot unwrapped, so firing the slot hands the callback
the raw optional event payload unchanged. -/
theorem raw_callbacks_stored_unwrapped {ε κ : Type} (st : SpeechToText ε κ)
    (cb : Option ε → κ) :
    ((st.setOnEnd cb).recognition.onend = some cb ∧
      ∀ e, fireSlot (st.setOnEnd cb).recognition.onend e = [cb e]) ∧
    ((st.setOnError cb).recognition.onerror = some cb ∧
      ∀ e, fireSlot (st.setOnError cb).recognition.onerror e = [cb e]) ∧
    ((st.setOnStart cb).recognition.onstart = some cb ∧
      ∀ e, fireSlot (st.setOnStart cb).recognition.onstart e = [cb e]) ∧
    ((st.setOnAudioStart cb).recognition.onstart = some cb ∧
      ∀ e, fireSlot (st.setOnAudioStart cb).recognition.onstart e = [cb e]) ∧
    ((st.setOnSoundStart cb).recognition.onsoundstart = some cb ∧
      ∀ e, fireSlot (st.setOnSoundStart cb).recognition.onsoundstart e =
        [cb e]) ∧
    ((st.setOnSoundEnd cb).recognition.onsoundend = some cb ∧
      ∀ e, fireSlot (st.setOnSoundEnd cb).recognition.onsoundend e = [cb e]) ∧
    ((st.setOnSpeechStart cb).recognition.onspeechstart = some cb ∧
      ∀ e, fireSlot (st.setOnSpeechStart cb).recognition.onspeechstart e =
        [cb e]) ∧
    ((st.setOnSpeechEnd cb).recognition.onspeechend = some cb ∧
      ∀ e, fireSlot (st.setOnSpeechEnd cb).recognition.onspeechend e =
        [cb e]) ∧
    ((st.setOnNoMatch cb).recognition.onnomatch = some cb ∧
      ∀ e, fireSlot (st.setOnNoMatch cb).recognition.onnomatch e = [cb e]) :=
  ⟨⟨rfl, fun _ => rfl⟩, ⟨rfl, fun _ => rfl⟩, ⟨rfl, fun _ => rfl⟩,
    ⟨rfl, fun _ => rfl⟩, ⟨rfl, fun _ => rfl⟩, ⟨rfl, fun _ => rfl⟩,
    ⟨rfl, fun _ => rfl⟩, ⟨rfl, fun _ => rfl⟩, ⟨rfl, fun _ => rfl⟩⟩

/-- C8: `startRecognition` calls exactly the engine's `start()` once and
`stopRecognition` exactly the engine's `stop()` once, leaving every other
part of the state untouched and returning the same builder instance. -/
theorem start_stop_delegate {ε κ : Type} (st : SpeechToText ε κ) :
    st.startRecognition =
      { st with recognition :=
          { st.recognition with
              startCalls := st.recognition.startCalls + 1 } } ∧
    st.stopRecognition =
      { st with recognition :=
          { st.recognition with stopCalls := st.recognition.stopCalls + 1 } } :=
  ⟨rfl, rfl⟩

/-- C9: configuration setters on distinct fields commute: `setLanguage s`
then `setContinuous b` produces exactly the state of `setContinuous b` then
`setLanguage s`. -/
theorem config_setters_commute {ε κ : Type} (st : SpeechToText ε κ)
    (s : String) (b : Bool) :
    (st.setLanguage s).setContinuous b = (st.setContinuous b).setLanguage s :=
  rfl

/-- C10: the wrapper installed by `setOnResult` indexes `event.results[0]`
and then `[0]` of that group unguarded: on an event with an empty results
list, or whose first group has no alternatives, the access throws (modelled
as `.error .typeError`) and the caller's callback is never invoked. -/
theorem resultWrapper_unguarded_indexing {ε κ : Type} (st : SpeechToText ε κ)
    (cb : String → Bool → κ) (event : SpeechRecognitionResultEvent)
    (h : event.results[0]? = none ∨
      ∃ g, event.results[0]? = some g ∧ g.alternatives[0]? = none) :
    (st.setOnResult cb).recognition.fireResult event =
      Except.error JsError.typeError := by
  rcases h with h | ⟨g, hg, ha⟩
  · simp [SpeechToText.setOnResult, RecognitionEngine.fireResult,
      resultWrapper, h]
  · simp [SpeechToText.setOnResult, RecognitionEngine.fireResult,
      resultWrapper, hg, ha]

/-- Witness for C10: delivering an event with an empty results list to the
wrapper installed on `st0` throws rather than invoking the callback. -/
theorem resultWrapper_unguarded_indexing_witness :
    (st0.setOnResult Prod.mk).recognition.fireResult
        (SpeechRecognitionResultEvent.mk []) =
      Except.error JsError.typeError :=
  resultWrapper_unguarded_indexing st0 Prod.mk
    (SpeechRecognitionResultEvent.mk []) (Or.inl rfl)
